import Mathlib

/-!
Verification of the chart-composing core of `src/app.py` (a Dash dashboard
that plots a Heat Wave Index and heatwave-day counts for Latvia).

The embedding translates the pure data flow of `update_graph` and its
helpers.  pandas DataFrames become Lean lists of records; `sort_values`
becomes an insertion sort on the year column; `Series.max`/`Series.min`
become folds; `.iloc[0]` becomes the head of a list; a plotly trace becomes
an explicit `Trace` record and a figure a `Figure` record.  Float values are
carried as `Rat`: the program never performs arithmetic on them, it only
selects and copies them, so any value type with decidable equality is a
faithful carrier.
-/

/-- One row of the HWI table (after load-time cleaning: `year` derived from
`time`, rows with missing `hwi` dropped). -/
structure HWIRec where
  year : Int
  source : String
  warning_level : String
  hwi : Rat
deriving DecidableEq, Repr

/-- One row of the heatwave-days table (after load-time cleaning: rows with
missing `heatwave_days` dropped, `year` coerced to integer). -/
structure HWRec where
  year : Int
  scenario : String
  heatwave_days : Rat
deriving DecidableEq, Repr

/-- The `scenario_colors` dict of app.py, as a lookup function (it is only
ever read at its five keys). -/
def scenario_colors (s : String) : String :=
  if s = "observations" then "black"
  else if s = "historical" then "gray"
  else if s = "ssp126" then "navy"
  else if s = "ssp245" then "orange"
  else if s = "ssp370" then "red"
  else ""

/-- The `level_colors` dict of app.py. -/
def level_colors (s : String) : String :=
  if s = "yellow" then "gold"
  else if s = "orange" then "darkorange"
  else if s = "red" then "firebrick"
  else ""

/-- The `color_map` dict local to the heatwave-days branch of `update_graph`. -/
def color_map (s : String) : String :=
  if s = "obs" then "black"
  else if s = "historical" then "gray"
  else if s = "ssp126" then "navy"
  else if s = "ssp245" then "orange"
  else if s = "ssp370" then "red"
  else ""

/-- Python's `str.capitalize`: first character upper-cased, rest lower-cased. -/
def pyCapitalize (s : String) : String :=
  match s.data with
  | [] => ""
  | c :: cs => String.mk (c.toUpper :: cs.map Char.toLower)

/-- Insert a record into a list keeping the `y` key column non-decreasing
(auxiliary for the embedding of `DataFrame.sort_values("year")`). -/
def insertY {α : Type} (y : α → Int) (r : α) : List α → List α
  | [] => [r]
  | x :: xs => if y r ≤ y x then r :: x :: xs else x :: insertY y r xs

/-- Embedding of `DataFrame.sort_values("year")`: sort by the year column.
(Only the key order matters to the program: after sorting it reads columns,
`max`, `min`, and the first row matching an exact year.) -/
def sortY {α : Type} (y : α → Int) : List α → List α
  | [] => []
  | x :: xs => insertY y x (sortY y xs)

/-- Embedding of `Series.max()` on the year column (only used on non-empty
series by the program; the `0` default is never reached there). -/
def colMax (l : List Int) : Int :=
  match l with
  | [] => 0
  | x :: xs => xs.foldl max x

/-- Embedding of `Series.min()` on the year column. -/
def colMin (l : List Int) : Int :=
  match l with
  | [] => 0
  | x :: xs => xs.foldl min x

/-- Embedding of `frame["hwi"].iloc[0]` (only used on non-empty frames). -/
def headHwi (l : List HWIRec) : Rat :=
  match l with
  | [] => 0
  | r :: _ => r.hwi

/-- Embedding of `frame["heatwave_days"].iloc[0]`. -/
def headHW (l : List HWRec) : Rat :=
  match l with
  | [] => 0
  | r :: _ => r.heatwave_days

/-- A plotly `go.Scatter` trace, restricted to the attributes app.py sets. -/
structure Trace where
  x : List Int
  y : List Rat
  mode : String
  name : Option String
  markerColor : Option String
  lineColor : String
  lineWidth : Option Rat
  hoverinfoSkip : Bool
  showlegend : Bool
  legendgroup : String
deriving DecidableEq, Repr

/-- A plotly figure, restricted to the attributes the claims are about:
the ordered trace list and the title / axis-title strings.  The remaining
layout settings applied by `update_layout` (template, hovermode, grid,
margins, height, `legend_groupclick="toggleitem"`) are identical constants
on every code path and carry no per-trace information. -/
structure Figure where
  traces : List Trace
  title : String
  xaxis_title : String
  yaxis_title : String
deriving DecidableEq, Repr

/-- A data series trace as built in every `fig.add_trace` call for a data
series: `mode="lines+markers"`, named, legend entry shown, marker and line
sharing one color, `legendgroup` equal to the series key. -/
def mkSeriesHWI (nm col : String) (sub : List HWIRec) : Trace :=
  { x := sub.map (·.year), y := sub.map (·.hwi), mode := "lines+markers",
    name := some nm, markerColor := some col, lineColor := col,
    lineWidth := none, hoverinfoSkip := false, showlegend := true,
    legendgroup := nm }

/-- The heatwave-days variant of a data series trace. -/
def mkSeriesHW (nm col : String) (sub : List HWRec) : Trace :=
  { x := sub.map (·.year), y := sub.map (·.heatwave_days),
    mode := "lines+markers", name := some nm, markerColor := some col,
    lineColor := col, lineWidth := none, hoverinfoSkip := false,
    showlegend := true, legendgroup := nm }

/-- A connector trace as built in both connector `fig.add_trace` calls:
two points, `mode="lines"`, `hoverinfo="skip"`, `showlegend=False`,
`legendgroup` given by the caller. -/
def mkConnector (col grp : String) (w : Rat) (x0 x1 : Int) (y0 y1 : Rat) :
    Trace :=
  { x := [x0, x1], y := [y0, y1], mode := "lines", name := none,
    markerColor := none, lineColor := col, lineWidth := some w,
    hoverinfoSkip := true, showlegend := false, legendgroup := grp }

/-- The warning-level filter of HWI scenario mode:
`df = df[df["warning_level"] == hwi_sel]`. -/
def dfScenario (tbl : List HWIRec) (hwi_sel : String) : List HWIRec :=
  tbl.filter (fun r => r.warning_level = hwi_sel)

/-- One step of the `for src in ["observations", "historical"]` loop:
the trace added for `src`, if its filtered sub-frame is non-empty. -/
def obsHistFor (df : List HWIRec) (src : String) : Option Trace :=
  let sub := sortY (·.year) (df.filter (fun r => r.source = src))
  if sub.isEmpty then none
  else some (mkSeriesHWI src (scenario_colors src) sub)

/-- One step of the inner `for base in ["observations", "historical"]`
connector loop for a given ssp whose sorted sub-frame is `sub`. -/
def sspConnFor (df : List HWIRec) (ssp : String) (sub : List HWIRec)
    (base : String) : Option Trace :=
  let b := sortY (·.year) (df.filter (fun r => r.source = base))
  if b.isEmpty then none
  else
    let x0 := colMax (b.map (·.year))
    let y0 := headHwi (b.filter (fun r => r.year = x0))
    let x1 := colMin (sub.map (·.year))
    let y1 := headHwi (sub.filter (fun r => r.year = x1))
    some (mkConnector (scenario_colors ssp) (ssp ++ "__" ++ base) (7 / 5)
      x0 x1 y0 y1)

/-- One step of the `for ssp in ["ssp126", "ssp245", "ssp370"]` loop: the
ssp data trace followed by its connectors, or nothing when the ssp
sub-frame is empty. -/
def sspBlock (df : List HWIRec) (ssp : String) : List Trace :=
  let sub := sortY (·.year) (df.filter (fun r => r.source = ssp))
  if sub.isEmpty then []
  else
    mkSeriesHWI ssp (scenario_colors ssp) sub ::
      (["observations", "historical"].filterMap (sspConnFor df ssp sub))

/-- The HWI-tab scenario-mode branch of `update_graph`. -/
def hwiScenarioFigure (tbl : List HWIRec) (hwi_sel : String) : Figure :=
  let df := dfScenario tbl hwi_sel
  { traces :=
      (["observations", "historical"].filterMap (obsHistFor df)) ++
        (["ssp126", "ssp245", "ssp370"].flatMap (sspBlock df)),
    title := "HWI — " ++ pyCapitalize hwi_sel,
    xaxis_title := "Gads", yaxis_title := "HWI" }

/-- One step of the `for lvl, col in level_colors.items()` loop of
warning mode (iteration order: yellow, orange, red — dict insertion order). -/
def warnFor (df : List HWIRec) (lvl : String) : Option Trace :=
  let sub := sortY (·.year) (df.filter (fun r => r.warning_level = lvl))
  if sub.isEmpty then none
  else some (mkSeriesHWI lvl (level_colors lvl) sub)

/-- The HWI-tab warning-mode branch of `update_graph`:
`df = df[df["source"] == hwi_sel]`, then one series per present level. -/
def hwiWarningFigure (tbl : List HWIRec) (hwi_sel : String) : Figure :=
  let df := tbl.filter (fun r => r.source = hwi_sel)
  { traces := ["yellow", "orange", "red"].filterMap (warnFor df),
    title := "HWI — scenārijs: " ++ hwi_sel,
    xaxis_title := "Gads", yaxis_title := "HWI" }

/-- The fixed scenario order of the heatwave-days tab. -/
def hwScenOrder : List String :=
  ["obs", "historical", "ssp126", "ssp245", "ssp370"]

/-- One step of the `for scen in [...]` loop of the heatwave-days tab.
`if hw_sel and scen not in hw_sel: continue` — the membership filter is
only applied when `hw_sel` is truthy, i.e. a non-empty list. -/
def hwSeriesFor (df : List HWRec) (hw_sel : List String) (scen : String) :
    Option Trace :=
  if hw_sel ≠ [] ∧ scen ∉ hw_sel then none
  else
    let sub := sortY (·.year) (df.filter (fun r => r.scenario = scen))
    if sub.isEmpty then none
    else some (mkSeriesHW scen (color_map scen) sub)

/-- The nested `add_connector(src_a, src_b, ssp_name)` function of the
heatwave-days branch, returning the traces it adds (zero or one).  The
frame `b` for `src_b` is computed by the source but never used; it is kept
(unused) for fidelity. -/
def add_connector (df : List HWRec) (src_a src_b ssp_name : String) :
    List Trace :=
  let a := sortY (·.year) (df.filter (fun r => r.scenario = src_a))
  let _b := sortY (·.year) (df.filter (fun r => r.scenario = src_b))
  let s := sortY (·.year) (df.filter (fun r => r.scenario = ssp_name))
  if a.isEmpty || s.isEmpty then []
  else
    let x0 := colMax (a.map (·.year))
    let y0 := headHW (a.filter (fun r => r.year = x0))
    let x1 := colMin (s.map (·.year))
    let y1 := headHW (s.filter (fun r => r.year = x1))
    [mkConnector (color_map ssp_name) (ssp_name ++ "__" ++ src_a) (13 / 10)
      x0 x1 y0 y1]

/-- The connector-adding block of the heatwave-days branch:
`if hw_sel:` guard, then for each ssp the historical connector (when both
are selected) followed by the obs connector (when both are selected). -/
def hwDaysConnectors (df : List HWRec) (hw_sel : List String) : List Trace :=
  if hw_sel = [] then []
  else
    ["ssp126", "ssp245", "ssp370"].flatMap (fun ssp =>
      (if ssp ∈ hw_sel ∧ "historical" ∈ hw_sel then
        add_connector df "historical" ssp ssp
      else []) ++
      (if ssp ∈ hw_sel ∧ "obs" ∈ hw_sel then
        add_connector df "obs" ssp ssp
      else []))

/-- The heatwave-days branch of `update_graph`. -/
def hwDaysFigure (tbl : List HWRec) (hw_sel : List String) : Figure :=
  { traces :=
      (hwScenOrder.filterMap (hwSeriesFor tbl hw_sel)) ++
        hwDaysConnectors tbl hw_sel,
    title := "Karstuma viļņu dienas",
    xaxis_title := "Gads", yaxis_title := "Dienas" }

/-- The process-wide state of app.py after load: the HWI table, the optional
heatwave-days table (`None` when its file failed to load) and the
`have_hw` flag. -/
structure AppState where
  hwi : List HWIRec
  hw : Option (List HWRec)
  have_hw : Bool
deriving DecidableEq, Repr

/-- The `update_graph` callback.  `none` models the `AttributeError` that
`hw.copy()` would raise when the heatwave-days tab were requested with
`hw = None` (a state the UI makes unreachable, see the tab model below). -/
def update_graph (st : AppState) (tab hwi_view hwi_sel : String)
    (hw_sel : List String) : Option Figure :=
  if tab = "hwi" then
    some (if hwi_view = "scenario" then hwiScenarioFigure st.hwi hwi_sel
          else hwiWarningFigure st.hwi hwi_sel)
  else
    match st.hw with
    | some tbl => some (hwDaysFigure tbl hw_sel)
    | none => none

/-- State-passing form of `update_graph`.  Every pandas operation in the
callback (`hwi.copy()`, `hw.copy()`, boolean-mask filtering, `sort_values`)
returns a fresh frame bound to a local name; nothing is ever assigned back
to the globals `hwi` / `hw` and no in-place pandas call occurs, so the
translation threads the state through unchanged. -/
def update_graphS (st : AppState) (tab hwi_view hwi_sel : String)
    (hw_sel : List String) : Option Figure × AppState :=
  if tab = "hwi" then
    let df := st.hwi
    (some (if hwi_view = "scenario" then hwiScenarioFigure df hwi_sel
           else hwiWarningFigure df hwi_sel), st)
  else
    match st.hw with
    | some tbl =>
      let df := tbl
      (some (hwDaysFigure df hw_sel), st)
    | none => (none, st)

/-- The `try: hw = pd.read_csv(...) ... except Exception: hw = None;
have_hw = False` block at load time.  The argument is the outcome of
reading and cleaning the optional heatwave-days file. -/
def loadHWdays (res : Except String (List HWRec)) :
    Option (List HWRec) × Bool :=
  match res with
  | Except.ok t => (some t, true)
  | Except.error _ => (none, false)

/-- One `dcc.Tab` of the layout, restricted to the attributes app.py sets. -/
structure TabSpec where
  label : String
  value : String
  disabled : Bool
deriving DecidableEq, Repr

/-- The two tabs of `app.layout`: the heatwave-days tab carries
`disabled=not have_hw`. -/
def appTabs (have_hw : Bool) : List TabSpec :=
  [{ label := "HWI (gads)", value := "hwi", disabled := false },
   { label := "Karstuma viļņu dienas (gads)", value := "hw",
     disabled := !have_hw }]

/-- Modelled from the spec: the tab values a user can select.  The Dash UI
framework (outside this repository's code) never lets a user activate a
`dcc.Tab` with `disabled=True`, and `update_graph` is only invoked with the
currently selected tab value; so the composer only ever receives the value
of a non-disabled tab. -/
def selectableTabs (have_hw : Bool) : List String :=
  (appTabs have_hw).filterMap (fun tb =>
    if tb.disabled then none else some tb.value)

/-- The data-series traces of a figure (`showlegend` defaults to `True` on
every data series; both connector constructors set `showlegend=False`). -/
def dataTraces (f : Figure) : List Trace :=
  f.traces.filter (fun t => t.showlegend)

/-- The connector traces of a figure. -/
def connectorTraces (f : Figure) : List Trace :=
  f.traces.filter (fun t => !t.showlegend)

/-! ### Sorting lemmas -/

theorem mem_insertY {α : Type} (y : α → Int) (r : α) (l : List α) (a : α) :
    a ∈ insertY y r l ↔ a = r ∨ a ∈ l := by
  induction l with
  | nil => simp [insertY]
  | cons x xs ih =>
    by_cases h : y r ≤ y x
    · simp [insertY, h]
    · simp only [insertY, if_neg h, List.mem_cons, ih]
      tauto

theorem mem_sortY {α : Type} (y : α → Int) (l : List α) (a : α) :
    a ∈ sortY y l ↔ a ∈ l := by
  induction l with
  | nil => simp [sortY]
  | cons x xs ih => simp [sortY, mem_insertY, ih]

theorem length_insertY {α : Type} (y : α → Int) (r : α) (l : List α) :
    (insertY y r l).length = l.length + 1 := by
  induction l with
  | nil => rfl
  | cons x xs ih =>
    by_cases h : y r ≤ y x
    · simp [insertY, h]
    · simp [insertY, h, ih]

theorem length_sortY {α : Type} (y : α → Int) (l : List α) :
    (sortY y l).length = l.length := by
  induction l with
  | nil => rfl
  | cons x xs ih => simp [sortY, length_insertY, ih]

theorem sortY_eq_nil_iff {α : Type} (y : α → Int) (l : List α) :
    sortY y l = [] ↔ l = [] := by
  constructor
  · intro h
    have := length_sortY y l
    rw [h] at this
    exact List.length_eq_zero.mp this.symm
  · intro h; subst h; rfl

theorem chain'_insertY {α : Type} (y : α → Int) (r : α) (l : List α)
    (h : List.Chain' (fun a b => y a ≤ y b) l) :
    List.Chain' (fun a b => y a ≤ y b) (insertY y r l) := by
  induction l with
  | nil => simp [insertY]
  | cons x xs ih =>
    by_cases hle : y r ≤ y x
    · simp only [insertY, if_pos hle]
      exact List.chain'_cons.mpr ⟨hle, h⟩
    · simp only [insertY, if_neg hle]
      have hx : y x ≤ y r := le_of_lt (lt_of_not_le hle)
      have htail : List.Chain' (fun a b => y a ≤ y b) xs := h.tail
      refine List.chain'_cons'.mpr ⟨?_, ih htail⟩
      intro z hz
      cases xs with
      | nil =>
        simp [insertY] at hz
        subst hz; exact hx
      | cons w ws =>
        by_cases hw : y r ≤ y w
        · simp only [insertY, if_pos hw, List.head?_cons, Option.mem_def,
            Option.some.injEq] at hz
          subst hz; exact hx
        · simp only [insertY, if_neg hw, List.head?_cons, Option.mem_def,
            Option.some.injEq] at hz
          subst hz
          exact (List.chain'_cons.mp h).1

theorem chain'_sortY {α : Type} (y : α → Int) (l : List α) :
    List.Chain' (fun a b => y a ≤ y b) (sortY y l) := by
  induction l with
  | nil => simp [sortY]
  | cons x xs ih => exact chain'_insertY y x (sortY y xs) ih

/-! ### Max / min of a sorted year list -/

theorem foldl_max_sorted (l : List Int) (a : Int)
    (h : List.Chain' (· ≤ ·) (a :: l)) :
    (a :: l).getLast? = some (l.foldl max a) := by
  induction l generalizing a with
  | nil => rfl
  | cons b t ih =>
    have hab : a ≤ b := (List.chain'_cons.mp h).1
    have hbt : List.Chain' (· ≤ ·) (b :: t) := (List.chain'_cons.mp h).2
    rw [List.getLast?_cons_cons]
    rw [ih b hbt]
    simp [List.foldl, max_eq_right hab]

theorem chain'_head_le (a : Int) (l : List Int)
    (h : List.Chain' (· ≤ ·) (a :: l)) : ∀ v ∈ l, a ≤ v := by
  induction l generalizing a with
  | nil => intro v hv; cases hv
  | cons b t ih =>
    intro v hv
    have hab : a ≤ b := (List.chain'_cons.mp h).1
    have hbt : List.Chain' (· ≤ ·) (b :: t) := (List.chain'_cons.mp h).2
    rcases List.mem_cons.mp hv with rfl | hvt
    · exact hab
    · exact le_trans hab (ih b hbt v hvt)

theorem foldl_min_of_le (l : List Int) (a : Int) (h : ∀ v ∈ l, a ≤ v) :
    l.foldl min a = a := by
  induction l with
  | nil => rfl
  | cons b t ih =>
    have hab : a ≤ b := h b (List.mem_cons_self b t)
    simp only [List.foldl, min_eq_left hab]
    exact ih (fun v hv => h v (List.mem_cons_of_mem b hv))

theorem getLast?_colMax (l : List Int) (h : List.Chain' (· ≤ ·) l)
    (hne : l ≠ []) : l.getLast? = some (colMax l) := by
  cases l with
  | nil => exact absurd rfl hne
  | cons a t => exact foldl_max_sorted t a h

theorem head?_colMin (l : List Int) (h : List.Chain' (· ≤ ·) l)
    (hne : l ≠ []) : l.head? = some (colMin l) := by
  cases l with
  | nil => exact absurd rfl hne
  | cons a t =>
    simp only [List.head?_cons, colMin]
    rw [foldl_min_of_le t a (chain'_head_le a t h)]

/-! ### Shape of the traces each loop step emits -/

theorem obsHistFor_some {df : List HWIRec} {src : String} {t : Trace}
    (h : obsHistFor df src = some t) :
    sortY (·.year) (df.filter (fun r => r.source = src)) ≠ [] ∧
    t = mkSeriesHWI src (scenario_colors src)
          (sortY (·.year) (df.filter (fun r => r.source = src))) := by
  simp only [obsHistFor] at h
  split at h
  · cases h
  · next he => exact ⟨by simpa using he, (Option.some.inj h).symm⟩

theorem warnFor_some {df : List HWIRec} {lvl : String} {t : Trace}
    (h : warnFor df lvl = some t) :
    sortY (·.year) (df.filter (fun r => r.warning_level = lvl)) ≠ [] ∧
    t = mkSeriesHWI lvl (level_colors lvl)
          (sortY (·.year) (df.filter (fun r => r.warning_level = lvl))) := by
  simp only [warnFor] at h
  split at h
  · cases h
  · next he => exact ⟨by simpa using he, (Option.some.inj h).symm⟩

theorem sspConnFor_some {df : List HWIRec} {ssp : String} {sub : List HWIRec}
    {base : String} {t : Trace} (h : sspConnFor df ssp sub base = some t) :
    sortY (·.year) (df.filter (fun r => r.source = base)) ≠ [] ∧
    t = mkConnector (scenario_colors ssp) (ssp ++ "__" ++ base) (7 / 5)
          (colMax ((sortY (·.year)
            (df.filter (fun r => r.source = base))).map (·.year)))
          (colMin (sub.map (·.year)))
          (headHwi ((sortY (·.year)
            (df.filter (fun r => r.source = base))).filter
              (fun r => r.year = colMax ((sortY (·.year)
                (df.filter (fun r => r.source = base))).map (·.year)))))
          (headHwi (sub.filter
            (fun r => r.year = colMin (sub.map (·.year))))) := by
  simp only [sspConnFor] at h
  split at h
  · cases h
  · next he => exact ⟨by simpa using he, (Option.some.inj h).symm⟩

theorem mem_sspBlock {df : List HWIRec} {ssp : String} {t : Trace}
    (h : t ∈ sspBlock df ssp) :
    (sortY (·.year) (df.filter (fun r => r.source = ssp)) ≠ [] ∧
      t = mkSeriesHWI ssp (scenario_colors ssp)
            (sortY (·.year) (df.filter (fun r => r.source = ssp)))) ∨
    (sortY (·.year) (df.filter (fun r => r.source = ssp)) ≠ [] ∧
      ∃ base ∈ (["observations", "historical"] : List String),
        sspConnFor df ssp
          (sortY (·.year) (df.filter (fun r => r.source = ssp))) base =
            some t) := by
  simp only [sspBlock] at h
  split at h
  · cases h
  · next he =>
    have hne : sortY (·.year) (df.filter (fun r => r.source = ssp)) ≠ [] := by
      simpa using he
    rcases List.mem_cons.mp h with rfl | hmem
    · exact Or.inl ⟨hne, rfl⟩
    · rcases List.mem_filterMap.mp hmem with ⟨base, hb, hsome⟩
      exact Or.inr ⟨hne, base, hb, hsome⟩

theorem hwSeriesFor_some {df : List HWRec} {hw_sel : List String}
    {scen : String} {t : Trace} (h : hwSeriesFor df hw_sel scen = some t) :
    (hw_sel = [] ∨ scen ∈ hw_sel) ∧
    sortY (·.year) (df.filter (fun r => r.scenario = scen)) ≠ [] ∧
    t = mkSeriesHW scen (color_map scen)
          (sortY (·.year) (df.filter (fun r => r.scenario = scen))) := by
  simp only [hwSeriesFor] at h
  split at h
  · cases h
  · next hc =>
    push_neg at hc
    split at h
    · cases h
    · next he =>
      refine ⟨?_, by simpa using he, (Option.some.inj h).symm⟩
      by_cases hnil : hw_sel = []
      · exact Or.inl hnil
      · exact Or.inr (hc hnil)

theorem hwSeriesFor_some_of {df : List HWRec} {hw_sel : List String}
    {scen : String} (hsel : hw_sel = [] ∨ scen ∈ hw_sel)
    (hne : df.filter (fun r => r.scenario = scen) ≠ []) :
    hwSeriesFor df hw_sel scen =
      some (mkSeriesHW scen (color_map scen)
        (sortY (·.year) (df.filter (fun r => r.scenario = scen)))) := by
  have hcond : ¬(hw_sel ≠ [] ∧ scen ∉ hw_sel) := by
    rcases hsel with h | h
    · intro hc; exact hc.1 h
    · intro hc; exact hc.2 h
  have hsub : ¬(sortY (·.year)
      (df.filter (fun r => r.scenario = scen))).isEmpty = true := by
    rw [List.isEmpty_eq_true, sortY_eq_nil_iff]
    exact hne
  simp only [hwSeriesFor, if_neg hcond]
  rw [if_neg hsub]

theorem mem_add_connector {df : List HWRec} {src_a src_b ssp_name : String}
    {t : Trace} (h : t ∈ add_connector df src_a src_b ssp_name) :
    sortY (·.year) (df.filter (fun r => r.scenario = src_a)) ≠ [] ∧
    sortY (·.year) (df.filter (fun r => r.scenario = ssp_name)) ≠ [] ∧
    t = mkConnector (color_map ssp_name) (ssp_name ++ "__" ++ src_a)
          (13 / 10)
          (colMax ((sortY (·.year)
            (df.filter (fun r => r.scenario = src_a))).map (·.year)))
          (colMin ((sortY (·.year)
            (df.filter (fun r => r.scenario = ssp_name))).map (·.year)))
          (headHW ((sortY (·.year)
            (df.filter (fun r => r.scenario = src_a))).filter
              (fun r => r.year = colMax ((sortY (·.year)
                (df.filter (fun r => r.scenario = src_a))).map (·.year)))))
          (headHW ((sortY (·.year)
            (df.filter (fun r => r.scenario = ssp_name))).filter
              (fun r => r.year = colMin ((sortY (·.year)
                (df.filter
                  (fun r => r.scenario = ssp_name))).map (·.year))))) := by
  simp only [add_connector] at h
  split at h
  · cases h
  · next he =>
    rw [Bool.or_eq_true, not_or] at he
    rcases List.mem_singleton.mp h with rfl
    exact ⟨by simpa using he.1, by simpa using he.2, rfl⟩

theorem add_connector_length (df : List HWRec) (a b c : String) :
    (add_connector df a b c).length ≤ 1 := by
  simp only [add_connector]
  split
  · simp
  · simp

/-! ### Figure-level classification of traces -/

theorem mem_dataTraces_scenario {tbl : List HWIRec} {sel : String} {t : Trace}
    (h : t ∈ dataTraces (hwiScenarioFigure tbl sel)) :
    ∃ src : String,
      t = mkSeriesHWI src (scenario_colors src)
            (sortY (·.year)
              ((dfScenario tbl sel).filter (fun r => r.source = src))) := by
  simp only [dataTraces, hwiScenarioFigure] at h
  have h' := List.mem_filter.mp h
  have hsl : t.showlegend = true := by simpa using h'.2
  rcases List.mem_append.mp h'.1 with hA | hB
  · rcases List.mem_filterMap.mp hA with ⟨src, _, hsome⟩
    exact ⟨src, (obsHistFor_some hsome).2⟩
  · rcases List.mem_flatMap.mp hB with ⟨ssp, _, hblk⟩
    rcases mem_sspBlock hblk with ⟨_, rfl⟩ | ⟨_, base, _, hsome⟩
    · exact ⟨ssp, rfl⟩
    · have := (sspConnFor_some hsome).2
      rw [this] at hsl
      simp [mkConnector] at hsl

theorem mem_dataTraces_warning {tbl : List HWIRec} {sel : String} {t : Trace}
    (h : t ∈ dataTraces (hwiWarningFigure tbl sel)) :
    ∃ lvl : String,
      t = mkSeriesHWI lvl (level_colors lvl)
            (sortY (·.year)
              ((tbl.filter (fun r => r.source = sel)).filter
                (fun r => r.warning_level = lvl))) := by
  simp only [dataTraces, hwiWarningFigure] at h
  have h' := List.mem_filter.mp h
  rcases List.mem_filterMap.mp h'.1 with ⟨lvl, _, hsome⟩
  exact ⟨lvl, (warnFor_some hsome).2⟩

theorem mem_hwDaysConnectors {tbl : List HWRec} {hw_sel : List String}
    {t : Trace} (h : t ∈ hwDaysConnectors tbl hw_sel) :
    ∃ ssp ∈ (["ssp126", "ssp245", "ssp370"] : List String),
      ∃ base ∈ (["historical", "obs"] : List String),
        hw_sel ≠ [] ∧ ssp ∈ hw_sel ∧ base ∈ hw_sel ∧
        t ∈ add_connector tbl base ssp ssp := by
  simp only [hwDaysConnectors] at h
  split at h
  · cases h
  · next hnil =>
    rcases List.mem_flatMap.mp h with ⟨ssp, hssp, hmem⟩
    rcases List.mem_append.mp hmem with hh | ho
    · split at hh
      · next hc =>
        exact ⟨ssp, hssp, "historical", by simp, hnil, hc.1, hc.2, hh⟩
      · cases hh
    · split at ho
      · next hc =>
        exact ⟨ssp, hssp, "obs", by simp, hnil, hc.1, hc.2, ho⟩
      · cases ho

theorem dataTraces_hwDays_eq (tbl : List HWRec) (hw_sel : List String) :
    dataTraces (hwDaysFigure tbl hw_sel) =
      hwScenOrder.filterMap (hwSeriesFor tbl hw_sel) := by
  simp only [dataTraces, hwDaysFigure, List.filter_append]
  rw [List.filter_eq_self.mpr, List.filter_eq_nil_iff.mpr, List.append_nil]
  · intro t ht
    rcases mem_hwDaysConnectors ht with ⟨_, _, _, _, _, _, _, hmem⟩
    have := (mem_add_connector hmem).2.2
    subst this
    simp [mkConnector]
  · intro t ht
    rcases List.mem_filterMap.mp ht with ⟨scen, _, hsome⟩
    have := (hwSeriesFor_some hsome).2.2
    subst this
    simp [mkSeriesHW]

theorem mem_dataTraces_hwDays {tbl : List HWRec} {hw_sel : List String}
    {t : Trace} (h : t ∈ dataTraces (hwDaysFigure tbl hw_sel)) :
    ∃ scen : String,
      t = mkSeriesHW scen (color_map scen)
            (sortY (·.year) (tbl.filter (fun r => r.scenario = scen))) := by
  rw [dataTraces_hwDays_eq] at h
  rcases List.mem_filterMap.mp h with ⟨scen, _, hsome⟩
  exact ⟨scen, (hwSeriesFor_some hsome).2.2⟩

theorem connectorTraces_scenario_eq (tbl : List HWIRec) (sel : String) :
    connectorTraces (hwiScenarioFigure tbl sel) =
      ["ssp126", "ssp245", "ssp370"].flatMap (fun ssp =>
        (sspBlock (dfScenario tbl sel) ssp).filter
          (fun t => !t.showlegend)) := by
  simp only [connectorTraces, hwiScenarioFigure, List.filter_append,
    List.filter_flatMap]
  rw [List.filter_eq_nil_iff.mpr, List.nil_append]
  intro t ht
  rcases List.mem_filterMap.mp ht with ⟨src, _, hsome⟩
  have := (obsHistFor_some hsome).2
  subst this
  simp [mkSeriesHWI]

theorem connectorTraces_hwDays_eq (tbl : List HWRec) (hw_sel : List String) :
    connectorTraces (hwDaysFigure tbl hw_sel) = hwDaysConnectors tbl hw_sel := by
  simp only [connectorTraces, hwDaysFigure, List.filter_append]
  rw [List.filter_eq_nil_iff.mpr, List.filter_eq_self.mpr, List.nil_append]
  · intro t ht
    rcases mem_hwDaysConnectors ht with ⟨_, _, _, _, _, _, _, hmem⟩
    have := (mem_add_connector hmem).2.2
    subst this
    simp [mkConnector]
  · intro t ht
    rcases List.mem_filterMap.mp ht with ⟨scen, _, hsome⟩
    have := (hwSeriesFor_some hsome).2.2
    subst this
    simp [mkSeriesHW]

theorem mem_connectorTraces_scenario {tbl : List HWIRec} {sel : String}
    {t : Trace} (h : t ∈ connectorTraces (hwiScenarioFigure tbl sel)) :
    ∃ ssp ∈ (["ssp126", "ssp245", "ssp370"] : List String),
      ∃ base ∈ (["observations", "historical"] : List String),
        sortY (·.year)
            ((dfScenario tbl sel).filter (fun r => r.source = ssp)) ≠ [] ∧
        sortY (·.year)
            ((dfScenario tbl sel).filter (fun r => r.source = base)) ≠ [] ∧
        t.legendgroup = ssp ++ "__" ++ base ∧
        t.x = [colMax ((sortY (·.year)
                ((dfScenario tbl sel).filter
                  (fun r => r.source = base))).map (·.year)),
               colMin ((sortY (·.year)
                ((dfScenario tbl sel).filter
                  (fun r => r.source = ssp))).map (·.year))] := by
  rw [connectorTraces_scenario_eq] at h
  rcases List.mem_flatMap.mp h with ⟨ssp, hssp, hmem⟩
  have hmem' := List.mem_filter.mp hmem
  rcases mem_sspBlock hmem'.1 with ⟨_, rfl⟩ | ⟨hne, base, hb, hsome⟩
  · simp [mkSeriesHWI] at hmem'
  · rcases sspConnFor_some hsome with ⟨hbne, rfl⟩
    exact ⟨ssp, hssp, base, hb, hne, hbne, rfl, rfl⟩

theorem mem_connectorTraces_hwDays {tbl : List HWRec} {hw_sel : List String}
    {t : Trace} (h : t ∈ connectorTraces (hwDaysFigure tbl hw_sel)) :
    ∃ ssp ∈ (["ssp126", "ssp245", "ssp370"] : List String),
      ∃ base ∈ (["historical", "obs"] : List String),
        hw_sel ≠ [] ∧ ssp ∈ hw_sel ∧ base ∈ hw_sel ∧
        sortY (·.year) (tbl.filter (fun r => r.scenario = base)) ≠ [] ∧
        sortY (·.year) (tbl.filter (fun r => r.scenario = ssp)) ≠ [] ∧
        t.legendgroup = ssp ++ "__" ++ base ∧
        t.x = [colMax ((sortY (·.year)
                (tbl.filter (fun r => r.scenario = base))).map (·.year)),
               colMin ((sortY (·.year)
                (tbl.filter (fun r => r.scenario = ssp))).map (·.year))] := by
  rw [connectorTraces_hwDays_eq] at h
  rcases mem_hwDaysConnectors h with
    ⟨ssp, hssp, base, hbase, hnil, hs1, hs2, hmem⟩
  rcases mem_add_connector hmem with ⟨hane, hsne, rfl⟩
  exact ⟨ssp, hssp, base, hbase, hnil, hs1, hs2, hane, hsne, rfl, rfl⟩

/-! ### Counting lemmas for connectors -/

theorem flatMap_length_le_two_mul {α : Type} (l : List α)
    (f : α → List Trace) (q : α → Bool)
    (h : ∀ a ∈ l, (f a).length ≤ if q a then 2 else 0) :
    (l.flatMap f).length ≤ 2 * (l.filter q).length := by
  induction l with
  | nil => simp
  | cons a xs ih =>
    have ha := h a (List.mem_cons_self a xs)
    have hxs : ∀ b ∈ xs, (f b).length ≤ if q b then 2 else 0 :=
      fun b hb => h b (List.mem_cons_of_mem a hb)
    simp only [List.flatMap_cons, List.length_append, List.filter_cons]
    by_cases hq : q a
    · rw [if_pos hq] at ha
      rw [if_pos hq]
      simp only [List.length_cons]
      calc (f a).length + (xs.flatMap f).length
          ≤ 2 + 2 * (xs.filter q).length := Nat.add_le_add ha (ih hxs)
        _ = 2 * ((xs.filter q).length + 1) := by ring
    · rw [if_neg hq] at ha
      rw [if_neg hq]
      have : (f a).length = 0 := Nat.le_zero.mp ha
      rw [this, Nat.zero_add]
      exact ih hxs

theorem sspBlock_conn_length (df : List HWIRec) (ssp : String) :
    ((sspBlock df ssp).filter (fun t => !t.showlegend)).length ≤
      if !(df.filter (fun r => r.source = ssp)).isEmpty then 2 else 0 := by
  simp only [sspBlock]
  split
  · next he =>
    have : df.filter (fun r => r.source = ssp) = [] := by
      rw [← sortY_eq_nil_iff (·.year)]
      simpa using he
    simp [this]
  · next he =>
    have hne : df.filter (fun r => r.source = ssp) ≠ [] := by
      intro hc
      apply he
      rw [List.isEmpty_eq_true, sortY_eq_nil_iff]
      exact hc
    rw [if_pos (by simpa using hne)]
    calc ((mkSeriesHWI ssp (scenario_colors ssp)
            (sortY (·.year) (df.filter (fun r => r.source = ssp))) ::
          (["observations", "historical"].filterMap
            (sspConnFor df ssp (sortY (·.year)
              (df.filter (fun r => r.source = ssp)))))).filter
                (fun t => !t.showlegend)).length
        ≤ ((["observations", "historical"].filterMap
            (sspConnFor df ssp (sortY (·.year)
              (df.filter (fun r => r.source = ssp))))).filter
                (fun t => !t.showlegend)).length := by
          simp [List.filter_cons, mkSeriesHWI]
      _ ≤ ((["observations", "historical"] : List String).filterMap
            (sspConnFor df ssp (sortY (·.year)
              (df.filter (fun r => r.source = ssp))))).length :=
          List.length_filter_le _ _
      _ ≤ 2 := List.length_filterMap_le _ _

/-- Drawn-series predicate of the heatwave-days tab: the series for `scen`
is drawn iff the selection admits it (empty selection bypasses the filter)
and its sub-frame is non-empty. -/
def hwPresent (tbl : List HWRec) (hw_sel : List String) (scen : String) :
    Bool :=
  decide ((hw_sel = [] ∨ scen ∈ hw_sel) ∧
    tbl.filter (fun r => r.scenario = scen) ≠ [])

theorem hwDays_conn_length (tbl : List HWRec) (hw_sel : List String)
    (ssp : String) :
    ((if ssp ∈ hw_sel ∧ "historical" ∈ hw_sel then
        add_connector tbl "historical" ssp ssp
      else []) ++
     (if ssp ∈ hw_sel ∧ "obs" ∈ hw_sel then
        add_connector tbl "obs" ssp ssp
      else [])).length ≤
      if hwPresent tbl hw_sel ssp then 2 else 0 := by
  by_cases hq : (hw_sel = [] ∨ ssp ∈ hw_sel) ∧
      tbl.filter (fun r => r.scenario = ssp) ≠ []
  · have hp : hwPresent tbl hw_sel ssp = true := by
      simp only [hwPresent, decide_eq_true_eq]
      exact hq
    rw [hp, if_pos rfl, List.length_append]
    have h1 : (if ssp ∈ hw_sel ∧ "historical" ∈ hw_sel then
        add_connector tbl "historical" ssp ssp else []).length ≤ 1 := by
      split
      · exact add_connector_length tbl "historical" ssp ssp
      · exact Nat.zero_le 1
    have h2 : (if ssp ∈ hw_sel ∧ "obs" ∈ hw_sel then
        add_connector tbl "obs" ssp ssp else []).length ≤ 1 := by
      split
      · exact add_connector_length tbl "obs" ssp ssp
      · exact Nat.zero_le 1
    omega
  · have hp : hwPresent tbl hw_sel ssp = false := by
      simp only [hwPresent, decide_eq_false_iff_not]
      exact hq
    rw [hp]
    simp only [Bool.false_eq_true, if_false]
    rcases not_and_or.mp hq with hq1 | hq2
    · have hns : ssp ∉ hw_sel := fun hm => hq1 (Or.inr hm)
      rw [if_neg (show ¬(ssp ∈ hw_sel ∧ "historical" ∈ hw_sel) from
            fun hc => hns hc.1),
          if_neg (show ¬(ssp ∈ hw_sel ∧ "obs" ∈ hw_sel) from
            fun hc => hns hc.1)]
      exact Nat.le_refl 0
    · have hempty : tbl.filter (fun r => r.scenario = ssp) = [] :=
        not_not.mp hq2
      have hac : ∀ b : String, add_connector tbl b ssp ssp = [] := by
        intro b
        have hcond : ((sortY (·.year)
              (tbl.filter (fun r => r.scenario = b))).isEmpty ||
            (sortY (·.year)
              (tbl.filter (fun r => r.scenario = ssp))).isEmpty) = true := by
          rw [Bool.or_eq_true]
          right
          rw [List.isEmpty_eq_true, sortY_eq_nil_iff]
          exact hempty
        simp only [add_connector]
        rw [if_pos hcond]
      rw [hac, hac]
      simp

/-! ### Point provenance helpers -/

theorem zip_points_HWI (sub : List HWIRec) {pt : Int × Rat}
    (h : pt ∈ (sub.map (·.year)).zip (sub.map (·.hwi))) :
    ∃ r ∈ sub, pt = (r.year, r.hwi) := by
  rw [List.zip_map'] at h
  rcases List.mem_map.mp h with ⟨r, hr, heq⟩
  exact ⟨r, hr, heq.symm⟩

theorem zip_points_HW (sub : List HWRec) {pt : Int × Rat}
    (h : pt ∈ (sub.map (·.year)).zip (sub.map (·.heatwave_days))) :
    ∃ r ∈ sub, pt = (r.year, r.heatwave_days) := by
  rw [List.zip_map'] at h
  rcases List.mem_map.mp h with ⟨r, hr, heq⟩
  exact ⟨r, hr, heq.symm⟩

theorem filterMap_map_name (p : String → Prop) [DecidablePred p]
    (f : String → Option Trace) (l : List String)
    (h1 : ∀ s t, f s = some t → p s ∧ t.name = some s)
    (h2 : ∀ s, p s → (f s).isSome) :
    (l.filterMap f).map (fun t => t.name) =
      (l.filter (fun s => decide (p s))).map some := by
  induction l with
  | nil => rfl
  | cons a xs ih =>
    cases hfa : f a with
    | none =>
      have hpa : ¬p a := by
        intro hp
        have := h2 a hp
        rw [hfa] at this
        cases this
      simp only [List.filterMap_cons, hfa, List.filter_cons,
        decide_eq_true_eq]
      rw [if_neg hpa]
      exact ih
    | some t =>
      have hat := h1 a t hfa
      simp only [List.filterMap_cons, hfa, List.filter_cons,
        decide_eq_true_eq]
      rw [if_pos hat.1]
      simp only [List.map_cons, ih, hat.2]

/-! ### Claim C1 -/

/-- Concrete heatwave-days table used to refute C1 as stated: one `obs`
row. -/
def hwC1tbl : List HWRec :=
  [{ year := 2000, scenario := "obs", heatwave_days := 5 }]

/-- C1 counterexample: with the selected scenario set empty, `update_graph`
on the heatwave-days tab does NOT produce zero data series — the Python
guard `if hw_sel and scen not in hw_sel` treats an empty (falsy) selection
as "no filter", so every scenario present in the data is drawn (here: one
series). -/
theorem claim1_counterexample :
    update_graph { hwi := [], hw := some hwC1tbl, have_hw := true }
        "hw" "scenario" "yellow" [] = some (hwDaysFigure hwC1tbl []) ∧
    (dataTraces (hwDaysFigure hwC1tbl [])).length = 1 := by
  exact ⟨rfl, rfl⟩

/-- C1 (amended): on the heatwave-days tab the data series drawn are, in the
fixed order {obs, historical, ssp126, ssp245, ssp370}, exactly those
scenarios that are admitted by the selection AND have data — where a
NON-empty selected set admits exactly its members, but an EMPTY selected
set bypasses the membership filter and admits every scenario.  (The
original claim's "empty selected set gives zero data series" is false;
for a non-empty set the claim's "one series per selected scenario, and
only those" holds.) -/
theorem claim1_amended (tbl : List HWRec) (hw_sel : List String) :
    (dataTraces (hwDaysFigure tbl hw_sel)).map (fun t => t.name) =
      (hwScenOrder.filter (fun s => decide ((hw_sel = [] ∨ s ∈ hw_sel) ∧
        tbl.filter (fun r => r.scenario = s) ≠ []))).map some := by
  rw [dataTraces_hwDays_eq]
  refine filterMap_map_name
    (fun s => (hw_sel = [] ∨ s ∈ hw_sel) ∧
      tbl.filter (fun r => r.scenario = s) ≠ [])
    (hwSeriesFor tbl hw_sel) hwScenOrder ?_ ?_
  · intro s t hsome
    rcases hwSeriesFor_some hsome with ⟨hsel, hne, rfl⟩
    refine ⟨⟨hsel, ?_⟩, rfl⟩
    intro hc
    apply hne
    rw [sortY_eq_nil_iff]
    exact hc
  · intro s hp
    rw [hwSeriesFor_some_of hp.1 hp.2]
    rfl

/-! ### Claim C2 -/

/-- Concrete HWI table producing one connector: an observations row and an
ssp126 row, both at warning level yellow. -/
def hwiC2tbl : List HWIRec :=
  [{ year := 2020, source := "observations", warning_level := "yellow",
     hwi := 1 },
   { year := 2021, source := "ssp126", warning_level := "yellow", hwi := 2 }]

/-- C2 (code bug): the connector does NOT carry a visibility group shared
with its endpoint series.  The code's own comments say the connector must
"belong to the ssp and base so it hides with either" / be "only visible if
both ends are visible", but it assigns the connector `legendgroup`
"ssp126__observations" — a fresh group shared with NEITHER the ssp series
(group "ssp126") nor the base series (group "observations"), so hiding an
endpoint series does not hide the connector.  Evaluated here on a concrete
input in HWI scenario mode. -/
theorem claim2_bug :
    (connectorTraces (hwiScenarioFigure hwiC2tbl "yellow")).map
        (fun t => t.legendgroup) = ["ssp126__observations"] ∧
    (dataTraces (hwiScenarioFigure hwiC2tbl "yellow")).map
        (fun t => t.legendgroup) = ["observations", "ssp126"] ∧
    ∀ g ∈ (connectorTraces (hwiScenarioFigure hwiC2tbl "yellow")).map
        (fun t => t.legendgroup),
      g ∉ (dataTraces (hwiScenarioFigure hwiC2tbl "yellow")).map
        (fun t => t.legendgroup) := by
  refine ⟨rfl, rfl, ?_⟩
  decide

/-! ### Claim C3 -/

/-- C3: in both connector-producing modes, every emitted connector segment
has both endpoint series non-empty after filtering (its grouping string
records which ssp/base pair it bridges), and the number of connector
segments is at most twice the number of SSP series present (drawn) in that
mode. -/
theorem claim3_connectors (tbl : List HWIRec) (sel : String)
    (hwTbl : List HWRec) (hw_sel : List String) :
    (∀ t ∈ connectorTraces (hwiScenarioFigure tbl sel),
      ∃ ssp ∈ (["ssp126", "ssp245", "ssp370"] : List String),
        ∃ base ∈ (["observations", "historical"] : List String),
          t.legendgroup = ssp ++ "__" ++ base ∧
          (dfScenario tbl sel).filter (fun r => r.source = ssp) ≠ [] ∧
          (dfScenario tbl sel).filter (fun r => r.source = base) ≠ []) ∧
    (connectorTraces (hwiScenarioFigure tbl sel)).length ≤
      2 * ((["ssp126", "ssp245", "ssp370"] : List String).filter
        (fun ssp =>
          !((dfScenario tbl sel).filter
            (fun r => r.source = ssp)).isEmpty)).length ∧
    (∀ t ∈ connectorTraces (hwDaysFigure hwTbl hw_sel),
      ∃ ssp ∈ (["ssp126", "ssp245", "ssp370"] : List String),
        ∃ base ∈ (["historical", "obs"] : List String),
          t.legendgroup = ssp ++ "__" ++ base ∧
          ssp ∈ hw_sel ∧ base ∈ hw_sel ∧
          hwTbl.filter (fun r => r.scenario = ssp) ≠ [] ∧
          hwTbl.filter (fun r => r.scenario = base) ≠ []) ∧
    (connectorTraces (hwDaysFigure hwTbl hw_sel)).length ≤
      2 * ((["ssp126", "ssp245", "ssp370"] : List String).filter
        (hwPresent hwTbl hw_sel)).length := by
  refine ⟨?_, ?_, ?_, ?_⟩
  · intro t ht
    rcases mem_connectorTraces_scenario ht with
      ⟨ssp, hssp, base, hbase, hsne, hbne, hgrp, _⟩
    refine ⟨ssp, hssp, base, hbase, hgrp, ?_, ?_⟩
    · intro hc
      exact hsne ((sortY_eq_nil_iff (·.year) _).mpr hc ▸ rfl)
    · intro hc
      exact hbne ((sortY_eq_nil_iff (·.year) _).mpr hc ▸ rfl)
  · rw [connectorTraces_scenario_eq]
    exact flatMap_length_le_two_mul _ _
      (fun ssp =>
        !((dfScenario tbl sel).filter (fun r => r.source = ssp)).isEmpty)
      (fun ssp _ => sspBlock_conn_length (dfScenario tbl sel) ssp)
  · intro t ht
    rcases mem_connectorTraces_hwDays ht with
      ⟨ssp, hssp, base, hbase, _, hs1, hs2, hane, hsne, hgrp, _⟩
    refine ⟨ssp, hssp, base, hbase, hgrp, hs1, hs2, ?_, ?_⟩
    · intro hc
      exact hsne ((sortY_eq_nil_iff (·.year) _).mpr hc ▸ rfl)
    · intro hc
      exact hane ((sortY_eq_nil_iff (·.year) _).mpr hc ▸ rfl)
  · rw [connectorTraces_hwDays_eq]
    simp only [hwDaysConnectors]
    split
    · simp
    · exact flatMap_length_le_two_mul _ _ (hwPresent hwTbl hw_sel)
        (fun ssp _ => hwDays_conn_length hwTbl hw_sel ssp)

/-- Concrete HWI table for the C3 witness (one obs row, one ssp126 row,
both yellow). -/
def hwiC3tbl : List HWIRec :=
  [{ year := 2020, source := "observations", warning_level := "yellow",
     hwi := 1 },
   { year := 2021, source := "ssp126", warning_level := "yellow", hwi := 2 }]

/-- C3 witness: the theorem applied at a concrete table whose figure has one
connector, with the membership hypothesis discharged by evaluation. -/
theorem claim3_witness :
    ∃ ssp ∈ (["ssp126", "ssp245", "ssp370"] : List String),
      ∃ base ∈ (["observations", "historical"] : List String),
        (mkConnector "navy" "ssp126__observations" (7 / 5) 2020 2021 1
          2).legendgroup = ssp ++ "__" ++ base ∧
        (dfScenario hwiC3tbl "yellow").filter
          (fun r => r.source = ssp) ≠ [] ∧
        (dfScenario hwiC3tbl "yellow").filter
          (fun r => r.source = base) ≠ [] :=
  (claim3_connectors hwiC3tbl "yellow" [] []).1
    (mkConnector "navy" "ssp126__observations" (7 / 5) 2020 2021 1 2)
    (by
      have h : connectorTraces (hwiScenarioFigure hwiC3tbl "yellow") =
          [mkConnector "navy" "ssp126__observations" (7 / 5) 2020 2021
            1 2] := rfl
      rw [h]
      exact List.mem_singleton.mpr rfl)

/-! ### Claim C4 -/

theorem insertY_eq_cons {α : Type} (y : α → Int) (r : α) (l : List α)
    (h : ∀ x ∈ l.head?, y r ≤ y x) : insertY y r l = r :: l := by
  cases l with
  | nil => rfl
  | cons x xs =>
    simp only [insertY]
    rw [if_pos (h x (by simp))]

theorem sortY_sorted_id {α : Type} (y : α → Int) (l : List α)
    (h : List.Chain' (fun a b => y a ≤ y b) l) : sortY y l = l := by
  induction l with
  | nil => rfl
  | cons x xs ih =>
    have hxs := h.tail
    show insertY y x (sortY y xs) = x :: xs
    rw [ih hxs]
    exact insertY_eq_cons y x xs (List.chain'_cons'.mp h).1

theorem chain'_range_map {α : Type} (y : α → Int) (v : Nat → α) (n : Nat)
    (h : ∀ i : Nat, y (v i) ≤ y (v (i + 1))) :
    List.Chain' (fun a b => y a ≤ y b) ((List.range n).map v) := by
  rw [List.chain'_map]
  cases n with
  | zero => simp
  | succ m =>
    rw [List.chain'_range_succ]
    intro i _
    exact h i

/-- The observations block of the C4 data: years 2000–2020, level yellow,
values `f`. -/
def obsPart (f : Int → Rat) : List HWIRec :=
  (List.range 21).map (fun (i : Nat) =>
    { year := 2000 + (i : Int), source := "observations",
      warning_level := "yellow", hwi := f (2000 + (i : Int)) })

/-- The ssp126 block of the C4 data: years 2021–2100, level yellow,
values `g`. -/
def sspPart (g : Int → Rat) : List HWIRec :=
  (List.range 80).map (fun (i : Nat) =>
    { year := 2021 + (i : Int), source := "ssp126",
      warning_level := "yellow", hwi := g (2021 + (i : Int)) })

/-- The data family of C4: an observations series over the years 2000–2020
and an ssp126 series over 2021–2100, all at warning level yellow, with
arbitrary hwi values given by `f` and `g`, and no other sources. -/
def c4data (f g : Int → Rat) : List HWIRec :=
  obsPart f ++ sspPart g

set_option maxRecDepth 16384
set_option maxHeartbeats 2000000

/-- C4: in HWI scenario mode with level yellow, for any data consisting of
an observations series over 2000–2020 and an ssp126 series over 2021–2100
(and no other sources), the output has exactly the data series
"observations" and "ssp126" and exactly one connector, from
(2020, hwi at 2020 of observations) to (2021, hwi at 2021 of ssp126). -/
theorem claim4_scenario (f g : Int → Rat) :
    (dataTraces (hwiScenarioFigure (c4data f g) "yellow")).map
        (fun t => t.name) = [some "observations", some "ssp126"] ∧
    connectorTraces (hwiScenarioFigure (c4data f g) "yellow") =
      [mkConnector "navy" "ssp126__observations" (7 / 5) 2020 2021
        (f 2020) (g 2021)] := by
  have hchain_obs : List.Chain' (fun a b => a.year ≤ b.year) (obsPart f) := by
    unfold obsPart
    apply chain'_range_map
    intro i
    show 2000 + (i : Int) ≤ 2000 + ((i + 1 : Nat) : Int)
    push_cast
    omega
  have hchain_ssp : List.Chain' (fun a b => a.year ≤ b.year) (sspPart g) := by
    unfold sspPart
    apply chain'_range_map
    intro i
    show 2021 + (i : Int) ≤ 2021 + ((i + 1 : Nat) : Int)
    push_cast
    omega
  have hsort_obs : sortY (·.year) (obsPart f) = obsPart f :=
    sortY_sorted_id _ _ hchain_obs
  have hsort_ssp : sortY (·.year) (sspPart g) = sspPart g :=
    sortY_sorted_id _ _ hchain_ssp
  have hobsf : (dfScenario (c4data f g) "yellow").filter
      (fun r => r.source = "observations") = obsPart f := rfl
  have hhist : (dfScenario (c4data f g) "yellow").filter
      (fun r => r.source = "historical") = [] := rfl
  have h126 : (dfScenario (c4data f g) "yellow").filter
      (fun r => r.source = "ssp126") = sspPart g := rfl
  have h245 : (dfScenario (c4data f g) "yellow").filter
      (fun r => r.source = "ssp245") = [] := rfl
  have h370 : (dfScenario (c4data f g) "yellow").filter
      (fun r => r.source = "ssp370") = [] := rfl
  have hobsT : obsHistFor (dfScenario (c4data f g) "yellow") "observations" =
      some (mkSeriesHWI "observations" "black" (obsPart f)) := by
    simp only [obsHistFor]
    rw [hobsf, hsort_obs]
    rfl
  have hhistT : obsHistFor (dfScenario (c4data f g) "yellow") "historical" =
      none := by
    simp only [obsHistFor]
    rw [hhist]
    rfl
  have hmax_obs : colMax ((obsPart f).map (·.year)) = 2020 := by
    have hch : List.Chain' (· ≤ ·) ((obsPart f).map (·.year)) :=
      (List.chain'_map _).mpr hchain_obs
    have hne : (obsPart f).map (·.year) ≠ [] := by
      simp [obsPart]
    have hlast : ((obsPart f).map (·.year)).getLast? = some 2020 := rfl
    have hcm := getLast?_colMax _ hch hne
    rw [hlast] at hcm
    exact (Option.some.inj hcm).symm
  have hmin_ssp : colMin ((sspPart g).map (·.year)) = 2021 := by
    have hch : List.Chain' (· ≤ ·) ((sspPart g).map (·.year)) :=
      (List.chain'_map _).mpr hchain_ssp
    have hne : (sspPart g).map (·.year) ≠ [] := by
      simp [sspPart]
    have hh : ((sspPart g).map (·.year)).head? = some 2021 := rfl
    have hcm := head?_colMin _ hch hne
    rw [hh] at hcm
    exact (Option.some.inj hcm).symm
  have hconn_obs : sspConnFor (dfScenario (c4data f g) "yellow") "ssp126"
      (sspPart g) "observations" =
      some (mkConnector "navy" "ssp126__observations" (7 / 5) 2020 2021
        (f 2020) (g 2021)) := by
    simp only [sspConnFor]
    rw [hobsf, hsort_obs, hmax_obs, hmin_ssp]
    rfl
  have hconn_hist : sspConnFor (dfScenario (c4data f g) "yellow") "ssp126"
      (sspPart g) "historical" = none := by
    simp only [sspConnFor]
    rw [hhist]
    rfl
  have hblock126 : sspBlock (dfScenario (c4data f g) "yellow") "ssp126" =
      [mkSeriesHWI "ssp126" "navy" (sspPart g),
       mkConnector "navy" "ssp126__observations" (7 / 5) 2020 2021
        (f 2020) (g 2021)] := by
    simp only [sspBlock]
    rw [h126, hsort_ssp]
    rw [show ((sspPart g).isEmpty) = false from rfl]
    simp only [Bool.false_eq_true, if_false]
    rw [List.filterMap_cons_some hconn_obs, List.filterMap_cons_none hconn_hist]
    rfl
  have hblock245 : sspBlock (dfScenario (c4data f g) "yellow") "ssp245" = [] := by
    simp only [sspBlock]
    rw [h245]
    rfl
  have hblock370 : sspBlock (dfScenario (c4data f g) "yellow") "ssp370" = [] := by
    simp only [sspBlock]
    rw [h370]
    rfl
  have htraces : (hwiScenarioFigure (c4data f g) "yellow").traces =
      [mkSeriesHWI "observations" "black" (obsPart f),
       mkSeriesHWI "ssp126" "navy" (sspPart g),
       mkConnector "navy" "ssp126__observations" (7 / 5) 2020 2021
        (f 2020) (g 2021)] := by
    simp only [hwiScenarioFigure]
    rw [List.filterMap_cons_some hobsT, List.filterMap_cons_none hhistT,
      List.flatMap_cons, List.flatMap_cons, List.flatMap_cons,
      List.flatMap_nil, hblock126, hblock245, hblock370]
    rfl
  constructor
  · simp only [dataTraces]
    rw [htraces]
    rfl
  · simp only [connectorTraces]
    rw [htraces]
    rfl

/-! ### Claim C5 -/

/-- C5: filter faithfulness.  In scenario mode every plotted point of every
data series comes from a record whose `warning_level` equals the selected
level; in warning mode every plotted point comes from a record whose
`source` equals the selected source. -/
theorem claim5_filter_faithful (tbl : List HWIRec) (sel : String) :
    (∀ t ∈ dataTraces (hwiScenarioFigure tbl sel),
      ∀ pt ∈ t.x.zip t.y, ∃ r ∈ tbl, r.warning_level = sel ∧
        r.year = pt.1 ∧ r.hwi = pt.2) ∧
    (∀ t ∈ dataTraces (hwiWarningFigure tbl sel),
      ∀ pt ∈ t.x.zip t.y, ∃ r ∈ tbl, r.source = sel ∧
        r.year = pt.1 ∧ r.hwi = pt.2) := by
  constructor
  · intro t ht pt hpt
    rcases mem_dataTraces_scenario ht with ⟨src, rfl⟩
    simp only [mkSeriesHWI] at hpt
    rcases zip_points_HWI _ hpt with ⟨r, hr, rfl⟩
    rw [mem_sortY] at hr
    have hr2 := List.mem_filter.mp hr
    have hr3 := List.mem_filter.mp hr2.1
    refine ⟨r, hr3.1, ?_, rfl, rfl⟩
    simpa using hr3.2
  · intro t ht pt hpt
    rcases mem_dataTraces_warning ht with ⟨lvl, rfl⟩
    simp only [mkSeriesHWI] at hpt
    rcases zip_points_HWI _ hpt with ⟨r, hr, rfl⟩
    rw [mem_sortY] at hr
    have hr2 := List.mem_filter.mp hr
    have hr3 := List.mem_filter.mp hr2.1
    refine ⟨r, hr3.1, ?_, rfl, rfl⟩
    simpa using hr3.2

/-- Concrete table for the C5 witness. -/
def hwiC5tbl : List HWIRec :=
  [{ year := 2010, source := "observations", warning_level := "yellow",
     hwi := 3 }]

/-- C5 witness: the theorem applied to the single plotted point of a
one-row table, with both membership hypotheses discharged by evaluation. -/
theorem claim5_witness :
    ∃ r ∈ hwiC5tbl, r.warning_level = "yellow" ∧ r.year = (2010 : Int) ∧
      r.hwi = (3 : Rat) :=
  (claim5_filter_faithful hwiC5tbl "yellow").1
    { x := [2010], y := [3], mode := "lines+markers",
      name := some "observations", markerColor := some "black",
      lineColor := "black", lineWidth := none, hoverinfoSkip := false,
      showlegend := true, legendgroup := "observations" }
    (by decide) ((2010 : Int), (3 : Rat)) (by decide)

/-! ### Claim C6 -/

/-- C6: every drawn data series has its x values (years) non-decreasing, on
every tab and in every mode; and every connector's endpoints are computed
from the year-sorted base and ssp sub-frames — the first x is the max year
of the sorted base series (its last point's year) and the second x is the
min year of the sorted ssp series (its first point's year). -/
theorem claim6_ordering (tbl : List HWIRec) (sel : String)
    (hwTbl : List HWRec) (hw_sel : List String) :
    (∀ t ∈ dataTraces (hwiScenarioFigure tbl sel),
      List.Chain' (· ≤ ·) t.x) ∧
    (∀ t ∈ dataTraces (hwiWarningFigure tbl sel),
      List.Chain' (· ≤ ·) t.x) ∧
    (∀ t ∈ dataTraces (hwDaysFigure hwTbl hw_sel),
      List.Chain' (· ≤ ·) t.x) ∧
    (∀ t ∈ connectorTraces (hwiScenarioFigure tbl sel),
      ∃ ssp base : String, ∃ b s : List HWIRec,
        b = sortY (·.year)
          ((dfScenario tbl sel).filter (fun r => r.source = base)) ∧
        s = sortY (·.year)
          ((dfScenario tbl sel).filter (fun r => r.source = ssp)) ∧
        List.Chain' (· ≤ ·) (b.map (·.year)) ∧
        List.Chain' (· ≤ ·) (s.map (·.year)) ∧
        t.x = [colMax (b.map (·.year)), colMin (s.map (·.year))] ∧
        (b.map (·.year)).getLast? = some (colMax (b.map (·.year))) ∧
        (s.map (·.year)).head? = some (colMin (s.map (·.year)))) ∧
    (∀ t ∈ connectorTraces (hwDaysFigure hwTbl hw_sel),
      ∃ ssp base : String, ∃ b s : List HWRec,
        b = sortY (·.year) (hwTbl.filter (fun r => r.scenario = base)) ∧
        s = sortY (·.year) (hwTbl.filter (fun r => r.scenario = ssp)) ∧
        List.Chain' (· ≤ ·) (b.map (·.year)) ∧
        List.Chain' (· ≤ ·) (s.map (·.year)) ∧
        t.x = [colMax (b.map (·.year)), colMin (s.map (·.year))] ∧
        (b.map (·.year)).getLast? = some (colMax (b.map (·.year))) ∧
        (s.map (·.year)).head? = some (colMin (s.map (·.year)))) := by
  refine ⟨?_, ?_, ?_, ?_, ?_⟩
  · intro t ht
    rcases mem_dataTraces_scenario ht with ⟨src, rfl⟩
    exact (List.chain'_map _).mpr (chain'_sortY _ _)
  · intro t ht
    rcases mem_dataTraces_warning ht with ⟨lvl, rfl⟩
    exact (List.chain'_map _).mpr (chain'_sortY _ _)
  · intro t ht
    rcases mem_dataTraces_hwDays ht with ⟨scen, rfl⟩
    exact (List.chain'_map _).mpr (chain'_sortY _ _)
  · intro t ht
    rcases mem_connectorTraces_scenario ht with
      ⟨ssp, _, base, _, hsne, hbne, _, hx⟩
    refine ⟨ssp, base, _, _, rfl, rfl,
      (List.chain'_map _).mpr (chain'_sortY _ _),
      (List.chain'_map _).mpr (chain'_sortY _ _), hx, ?_, ?_⟩
    · exact getLast?_colMax _ ((List.chain'_map _).mpr (chain'_sortY _ _))
        (by simpa using hbne)
    · exact head?_colMin _ ((List.chain'_map _).mpr (chain'_sortY _ _))
        (by simpa using hsne)
  · intro t ht
    rcases mem_connectorTraces_hwDays ht with
      ⟨ssp, _, base, _, _, _, _, hbne, hsne, _, hx⟩
    refine ⟨ssp, base, _, _, rfl, rfl,
      (List.chain'_map _).mpr (chain'_sortY _ _),
      (List.chain'_map _).mpr (chain'_sortY _ _), hx, ?_, ?_⟩
    · exact getLast?_colMax _ ((List.chain'_map _).mpr (chain'_sortY _ _))
        (by simpa using hbne)
    · exact head?_colMin _ ((List.chain'_map _).mpr (chain'_sortY _ _))
        (by simpa using hsne)

/-- Concrete table for the C6 witness (rows deliberately out of year
order, so the sorting is visible in the drawn series). -/
def hwiC6tbl : List HWIRec :=
  [{ year := 2011, source := "observations", warning_level := "yellow",
     hwi := 1 },
   { year := 2010, source := "observations", warning_level := "yellow",
     hwi := 2 }]

/-- C6 witness: the theorem applied to the series drawn from an unsorted
two-row table; its x values come out year-sorted. -/
theorem claim6_witness :
    List.Chain' (· ≤ ·)
      ({ x := [2010, 2011], y := [2, 1], mode := "lines+markers",
         name := some "observations", markerColor := some "black",
         lineColor := "black", lineWidth := none, hoverinfoSkip := false,
         showlegend := true, legendgroup := "observations" } : Trace).x :=
  (claim6_ordering hwiC6tbl "yellow" [] []).1
    { x := [2010, 2011], y := [2, 1], mode := "lines+markers",
      name := some "observations", markerColor := some "black",
      lineColor := "black", lineWidth := none, hoverinfoSkip := false,
      showlegend := true, legendgroup := "observations" }
    (by decide)

/-! ### Claim C7 -/

/-- C7: the composer never mutates the loaded tables.  In the state-passing
translation of `update_graph` (where each pandas operation yields a fresh
frame and nothing is assigned back to the process-wide tables), the state
after any call equals the state before it, and the returned figure is the
one computed by `update_graph`. -/
theorem claim7_no_mutation (st : AppState) (tab hwi_view hwi_sel : String)
    (hw_sel : List String) :
    (update_graphS st tab hwi_view hwi_sel hw_sel).2 = st ∧
    (update_graphS st tab hwi_view hwi_sel hw_sel).1 =
      update_graph st tab hwi_view hwi_sel hw_sel := by
  by_cases htab : tab = "hwi"
  · simp [update_graphS, update_graph, htab]
  · cases hst : st.hw <;> simp [update_graphS, update_graph, htab, hst]

/-! ### Claim C8 -/

/-- C8: when the heatwave-days file fails to load, the exception is caught
(the loader returns a value, `hw = None` and `have_hw = False`), the
heatwave-days tab of the layout is disabled, and — since the UI only
invokes the composer with a selectable (non-disabled) tab — the composer
is never invoked with the heatwave-days tab: the only selectable tab value
is "hwi". -/
theorem claim8_load_failure (e : String) :
    loadHWdays (Except.error e) = (none, false) ∧
    (appTabs (loadHWdays (Except.error e)).2).map
        (fun tb => (tb.value, tb.disabled)) =
      [("hwi", false), ("hw", true)] ∧
    selectableTabs (loadHWdays (Except.error e)).2 = ["hwi"] ∧
    ∀ tab ∈ selectableTabs (loadHWdays (Except.error e)).2, tab ≠ "hw" := by
  refine ⟨rfl, rfl, rfl, ?_⟩
  intro tab ht
  have htab : tab = "hwi" := by
    have h : selectableTabs (loadHWdays (Except.error e)).2 = ["hwi"] := rfl
    rw [h] at ht
    simpa using ht
  subst htab
  decide

/-- C8 witness: the theorem applied at a concrete load error. -/
theorem claim8_witness :
    ("hwi" : String) ≠ "hw" ∧
    loadHWdays (Except.error "file missing") = (none, false) :=
  ⟨(claim8_load_failure "file missing").2.2.2 "hwi" (by decide),
   (claim8_load_failure "file missing").1⟩

/-! ### Claim C9 -/

/-- C9: a selection whose category is absent from the data (an unknown
warning level in scenario mode, an unknown source in warning mode) yields
a figure with no traces at all — no data series and no connectors — and
the composer is a total function, so no error is raised. -/
theorem claim9_unknown_selection (tbl : List HWIRec) (sel1 sel2 : String) :
    ((∀ r ∈ tbl, r.warning_level ≠ sel1) →
      (hwiScenarioFigure tbl sel1).traces = []) ∧
    ((∀ r ∈ tbl, r.source ≠ sel2) →
      (hwiWarningFigure tbl sel2).traces = []) := by
  constructor
  · intro h
    have hdf : dfScenario tbl sel1 = [] := by
      simp only [dfScenario]
      rw [List.filter_eq_nil_iff]
      intro r hr
      simpa using h r hr
    simp only [hwiScenarioFigure, hdf]
    rfl
  · intro h
    have hdf : tbl.filter (fun r => r.source = sel2) = [] := by
      rw [List.filter_eq_nil_iff]
      intro r hr
      simpa using h r hr
    simp only [hwiWarningFigure, hdf]
    rfl

/-- Concrete table for the C9 witness. -/
def hwiC9tbl : List HWIRec :=
  [{ year := 2000, source := "observations", warning_level := "yellow",
     hwi := 1 }]

/-- C9 witness: the theorem applied at a concrete table with an unknown
warning level ("green") and an unknown source ("nosuch"). -/
theorem claim9_witness :
    (hwiScenarioFigure hwiC9tbl "green").traces = [] ∧
    (hwiWarningFigure hwiC9tbl "nosuch").traces = [] :=
  ⟨(claim9_unknown_selection hwiC9tbl "green" "nosuch").1 (by decide),
   (claim9_unknown_selection hwiC9tbl "green" "nosuch").2 (by decide)⟩

/-! ### Claim C10 -/

/-- C10: on the heatwave-days tab, a call of `update_graph` with an empty
selected scenario set produces a figure with zero connector segments,
whatever the table contains (the connector block is guarded by
`if hw_sel:`, and an empty list is falsy). -/
theorem claim10_empty_selection_connectors (st : AppState)
    (tbl : List HWRec) (hwi_view hwi_sel : String) :
    update_graph { st with hw := some tbl } "hw" hwi_view hwi_sel [] =
      some (hwDaysFigure tbl []) ∧
    connectorTraces (hwDaysFigure tbl []) = [] := by
  constructor
  · rfl
  · rw [connectorTraces_hwDays_eq]
    rfl
